import Mathlib

/-!
Verification of the CanvasMCP queryForwarder relay and credential discovery.

This file gives a shallow embedding of the Chrome-extension relay found in
the repository: the shared module canvas-graphql.js (findCSRFToken and
executeGraphQLQuery), the queryForwarder content script
(handleQueryExecution and its message listener) and the queryForwarder
background script (canvasTabs registry, findCanvasTab, executeQuery and its
message listeners).  Ambient browser state (DOM meta tags, window.ENV,
document.cookie, the set of open tabs, the HTTP response of the GraphQL
endpoint) is modelled as explicit input data; platform functions used by the
code (decodeURIComponent, JSON.parse, String.prototype.includes) are
modelled as executable Lean functions.  Thrown JavaScript exceptions are
modelled with Except; a total result type shows that a boundary catches.
-/

namespace CanvasMCP

set_option maxRecDepth 8192

/-! ## String utilities: JavaScript String.prototype.includes -/

/-- Model of JavaScript s.includes(pat): pat occurs contiguously in s. -/
def includesB (s pat : String) : Bool := decide (pat.data <:+: s.data)

/-! ## decodeURIComponent -/

def hexVal (c : Char) : Option Nat :=
  if '0' ≤ c ∧ c ≤ '9' then some (c.toNat - 48)
  else if 'A' ≤ c ∧ c ≤ 'F' then some (c.toNat - 55)
  else if 'a' ≤ c ∧ c ≤ 'f' then some (c.toNat - 87)
  else none

/-- One unit of a percent-encoded string: either a literal character or a
byte coming from a percent escape.  Fails (models URIError) on a percent
sign that is not followed by two hex digits. -/
def percentTokens : List Char → Option (List (Sum Char Nat))
  | [] => some []
  | '%' :: h1 :: h2 :: rest =>
    match hexVal h1, hexVal h2 with
    | some a, some b => (percentTokens rest).map (fun ts => Sum.inr (16 * a + b) :: ts)
    | _, _ => none
  | '%' :: _ => none
  | c :: rest => (percentTokens rest).map (fun ts => Sum.inl c :: ts)

def contByte (b : Nat) : Bool := 128 ≤ b ∧ b ≤ 191

/-- UTF-8 decoding of the byte runs produced by percent escapes, rejecting
truncated sequences, overlong encodings and surrogate code points, as
decodeURIComponent does. -/
def utf8Decode : List (Sum Char Nat) → Option (List Char)
  | [] => some []
  | Sum.inl c :: rest => (utf8Decode rest).map (fun cs => c :: cs)
  | Sum.inr b :: rest =>
    if b < 128 then (utf8Decode rest).map (fun cs => Char.ofNat b :: cs)
    else if 194 ≤ b ∧ b ≤ 223 then
      match rest with
      | Sum.inr b2 :: rest2 =>
        if contByte b2 then
          (utf8Decode rest2).map (fun cs => Char.ofNat ((b - 192) * 64 + (b2 - 128)) :: cs)
        else none
      | _ => none
    else if 224 ≤ b ∧ b ≤ 239 then
      match rest with
      | Sum.inr b2 :: Sum.inr b3 :: rest2 =>
        let lo2 : Nat := if b = 224 then 160 else 128
        let hi2 : Nat := if b = 237 then 159 else 191
        if lo2 ≤ b2 ∧ b2 ≤ hi2 ∧ contByte b3 then
          (utf8Decode rest2).map
            (fun cs => Char.ofNat ((b - 224) * 4096 + (b2 - 128) * 64 + (b3 - 128)) :: cs)
        else none
      | _ => none
    else if 240 ≤ b ∧ b ≤ 244 then
      match rest with
      | Sum.inr b2 :: Sum.inr b3 :: Sum.inr b4 :: rest2 =>
        let lo2 : Nat := if b = 240 then 144 else 128
        let hi2 : Nat := if b = 244 then 143 else 191
        if lo2 ≤ b2 ∧ b2 ≤ hi2 ∧ contByte b3 ∧ contByte b4 then
          (utf8Decode rest2).map
            (fun cs =>
              Char.ofNat
                ((b - 240) * 262144 + (b2 - 128) * 4096 + (b3 - 128) * 64 + (b4 - 128)) :: cs)
        else none
      | _ => none
    else none

/-- Model of decodeURIComponent; none models a thrown URIError. -/
def uriDecode (s : String) : Option String :=
  match percentTokens s.data with
  | none => none
  | some ts =>
    match utf8Decode ts with
    | none => none
    | some cs => some (String.mk cs)

/-- The token post-processing step inside the probe loop of findCSRFToken
(canvas-graphql.js lines 250-260) and repeated in executeGraphQLQuery
(lines 283-290): when the token contains a percent sign, attempt
decodeURIComponent inside try/catch and keep the raw token if it throws. -/
def processToken (t : String) : String :=
  if includesB t "%" then
    match uriDecode t with
    | some d => d
    | none => t
  else t

/-! ## Credential discovery: findCSRFToken (canvas-graphql.js lines 198-269,
matching the copy in the standalone content script) -/

/-- The ambient page state read by the five probes of findCSRFToken.
Fields are the observable results of the DOM queries the probes make:
none models a missing element / attribute / config entry; the cookie field
is the raw document.cookie string. -/
structure PageEnv where
  metaCsrfDash : Option String
  metaCsrfUnderscore : Option String
  dataCsrfToken : Option String
  windowEnvCsrfToken : Option String
  cookie : String
  locationHref : String
deriving DecidableEq, Repr

/-- Probe 1: content of the element matching meta[name="csrf-token"]. -/
def probeMetaDash (env : PageEnv) : Option String := env.metaCsrfDash

/-- Probe 2: content of the element matching meta[name="csrf_token"]. -/
def probeMetaUnderscore (env : PageEnv) : Option String := env.metaCsrfUnderscore

/-- Probe 3: the data-csrf-token attribute of the first element carrying it. -/
def probeDataAttr (env : PageEnv) : Option String := env.dataCsrfToken

/-- Probe 4: window.ENV and window.ENV.CSRF_TOKEN, guarded by truthiness of
the token inside the probe itself. -/
def probeWindowEnv (env : PageEnv) : Option String :=
  match env.windowEnvCsrfToken with
  | some t => if t.isEmpty then none else some t
  | none => none

/-- The loop body of the cookie probe: split document.cookie on semicolons,
trim each entry, split on the equals sign, and return the value part of the
first entry named _csrf_token or csrf_token.  Returning the value ends the
search even when the value part is missing (JavaScript undefined, modelled
as none). -/
def cookieLookup : List String → Option String
  | [] => none
  | c :: rest =>
    let parts := (c.trim).splitOn "="
    let name := parts.headD ""
    if name = "_csrf_token" ∨ name = "csrf_token" then parts.get? 1
    else cookieLookup rest

/-- Probe 5: the cookie probe over document.cookie. -/
def probeCookies (env : PageEnv) : Option String :=
  cookieLookup (env.cookie.splitOn ";")

/-- The ordered, fixed probe list of findCSRFToken. -/
def rawProbes (env : PageEnv) : List (Option String) :=
  [probeMetaDash env, probeMetaUnderscore env, probeDataAttr env,
   probeWindowEnv env, probeCookies env]

/-- Probe at a given position of the fixed order, for stating precedence. -/
def probeAt (env : PageEnv) (i : Nat) : Option String :=
  match i with
  | 0 => probeMetaDash env
  | 1 => probeMetaUnderscore env
  | 2 => probeDataAttr env
  | 3 => probeWindowEnv env
  | 4 => probeCookies env
  | _ => none

/-- The outer loop of findCSRFToken: the first truthy candidate (JavaScript
truthiness of a string is non-emptiness; null and undefined are falsy). -/
def firstToken : List (Option String) → Option String
  | [] => none
  | o :: rest =>
    match o with
    | some t => if t.isEmpty then firstToken rest else some t
    | none => firstToken rest

/-- findCSRFToken: probe the fixed source order and return the first truthy
candidate after the conditional percent-decoding step; null when every
probe misses. -/
def findCSRFToken (env : PageEnv) : Option String :=
  (firstToken (rawProbes env)).map processToken

/-- A probe result is present when it is a truthy candidate. -/
def tokenPresent (o : Option String) : Prop := o ≠ none ∧ o ≠ some ""

instance (o : Option String) : Decidable (tokenPresent o) := by
  unfold tokenPresent; infer_instance

/-! ## JSON values and JSON.parse -/

/-- JSON values as produced by JSON.parse.  Numbers are modelled as
integers: no body in this development carries a fractional number. -/
inductive Json where
  | null : Json
  | bool (b : Bool) : Json
  | num (n : Int) : Json
  | str (s : String) : Json
  | arr (elems : List Json) : Json
  | obj (fields : List (String × Json)) : Json

def skipWs : List Char → List Char
  | [] => []
  | c :: cs => if c = ' ' ∨ c = '\t' ∨ c = '\n' ∨ c = '\r' then skipWs cs else c :: cs

def parseStringBody : List Char → Option (List Char × List Char)
  | [] => none
  | '"' :: rest => some ([], rest)
  | '\\' :: e :: rest =>
    match e with
    | '"' => (parseStringBody rest).map (fun p => ('"' :: p.1, p.2))
    | '\\' => (parseStringBody rest).map (fun p => ('\\' :: p.1, p.2))
    | '/' => (parseStringBody rest).map (fun p => ('/' :: p.1, p.2))
    | 'b' => (parseStringBody rest).map (fun p => (Char.ofNat 8 :: p.1, p.2))
    | 'f' => (parseStringBody rest).map (fun p => (Char.ofNat 12 :: p.1, p.2))
    | 'n' => (parseStringBody rest).map (fun p => ('\n' :: p.1, p.2))
    | 'r' => (parseStringBody rest).map (fun p => ('\r' :: p.1, p.2))
    | 't' => (parseStringBody rest).map (fun p => ('\t' :: p.1, p.2))
    | _ => none
  | c :: rest => (parseStringBody rest).map (fun p => (c :: p.1, p.2))

def digitsToNat : List Char → Nat → Nat
  | [], acc => acc
  | c :: cs, acc => digitsToNat cs (acc * 10 + (c.toNat - 48))

/-- Fuel-based JSON value parser.  Arrays and objects are parsed by
re-wrapping the tail behind a fresh opening bracket, so a single function
suffices; trailing commas are rejected by the head check at each comma. -/
def parseJson : Nat → List Char → Option (Json × List Char)
  | 0, _ => none
  | fuel + 1, cs =>
    match skipWs cs with
    | 'n' :: 'u' :: 'l' :: 'l' :: rest => some (.null, rest)
    | 't' :: 'r' :: 'u' :: 'e' :: rest => some (.bool true, rest)
    | 'f' :: 'a' :: 'l' :: 's' :: 'e' :: rest => some (.bool false, rest)
    | '"' :: rest => (parseStringBody rest).map (fun p => (.str (String.mk p.1), p.2))
    | '[' :: rest =>
      match skipWs rest with
      | ']' :: rest2 => some (.arr [], rest2)
      | rest2 =>
        match parseJson fuel rest2 with
        | none => none
        | some (v, rest3) =>
          match skipWs rest3 with
          | ',' :: rest4 =>
            if (skipWs rest4).head? = some ']' then none
            else
              match parseJson fuel ('[' :: rest4) with
              | some (.arr vs, rest5) => some (.arr (v :: vs), rest5)
              | _ => none
          | ']' :: rest4 => some (.arr [v], rest4)
          | _ => none
    | '{' :: rest =>
      match skipWs rest with
      | '}' :: rest2 => some (.obj [], rest2)
      | '"' :: rest2 =>
        match parseStringBody rest2 with
        | none => none
        | some (key, rest3) =>
          match skipWs rest3 with
          | ':' :: rest4 =>
            match parseJson fuel rest4 with
            | none => none
            | some (v, rest5) =>
              match skipWs rest5 with
              | ',' :: rest6 =>
                if (skipWs rest6).head? = some '}' then none
                else
                  match parseJson fuel ('{' :: rest6) with
                  | some (.obj ms, rest7) => some (.obj ((String.mk key, v) :: ms), rest7)
                  | _ => none
              | '}' :: rest6 => some (.obj [(String.mk key, v)], rest6)
              | _ => none
          | _ => none
      | _ => none
    | '-' :: rest =>
      match rest.takeWhile Char.isDigit, rest.dropWhile Char.isDigit with
      | [], _ => none
      | ds, rest2 =>
        if rest2.head? = some '.' ∨ rest2.head? = some 'e' ∨ rest2.head? = some 'E' then none
        else some (.num (-(Int.ofNat (digitsToNat ds 0))), rest2)
    | c :: rest =>
      if c.isDigit then
        match (c :: rest).takeWhile Char.isDigit, (c :: rest).dropWhile Char.isDigit with
        | ds, rest2 =>
          if rest2.head? = some '.' ∨ rest2.head? = some 'e' ∨ rest2.head? = some 'E' then none
          else some (.num (Int.ofNat (digitsToNat ds 0)), rest2)
      else none
    | [] => none

/-- Model of JSON.parse; none models a thrown SyntaxError. -/
def jsonParse (s : String) : Option Json :=
  match parseJson (s.length + 1) s.data with
  | some (j, rest) => if skipWs rest = [] then some j else none
  | none => none

/-- The top-level keys of a JSON object, used to discriminate values. -/
def topKeys : Json → List String
  | .obj fields => fields.map Prod.fst
  | _ => []

/-! ## Relay data model -/

/-- The response the GraphQL endpoint gives to the executed HTTP POST:
the fields of the fetch Response object the executor reads. -/
structure HttpResponse where
  ok : Bool
  status : Nat
  statusText : String
  body : String
deriving DecidableEq, Repr

/-- The structured error payload carried by a relay response.  The content
script fills message, status, statusText, data and rawResponse from the
caught error; the background listener fills only message (its stack field
is an opaque platform trace, not modelled). -/
structure ErrPayload where
  message : String
  status : Option Nat
  statusText : Option String
  data : Option Json
  rawResponse : Option String

/-- A plain error payload carrying only a message, as produced by a thrown
JavaScript Error whose extra fields are undefined. -/
def plainErr (m : String) : ErrPayload :=
  { message := m, status := none, statusText := none, data := none, rawResponse := none }

/-- The relay response shape used on every hop:
success/data on the happy path, success=false/error otherwise. -/
structure RelayResponse where
  success : Bool
  data : Option Json
  error : Option ErrPayload

/-- A RelayRequest as carried by the executeGraphQLQuery /executeQuery
messages: the query string, the variables object (source field name:
variables, spelled vars here because variables is a Lean command), and an
optional endpoint override. -/
structure Request where
  query : String
  vars : List (String × Json)
  endpoint : Option String

/-- A live browser tab as the background script observes it: its id, its
url (none when unreadable), the hostname its url parses to (none when
new URL throws), and whether the queryForwarder content script is loaded
in it. -/
structure Tab where
  id : Nat
  url : Option String
  host : Option String
  csLoaded : Bool
deriving DecidableEq, Repr

/-- An entry of the background script's canvasTabs registry. -/
structure TabInfo where
  url : String
  hostname : String
deriving DecidableEq, Repr

/-- The ambient state of a relay call: the canvasTabs registry, the live
tabs in chrome.tabs.query order, whether chrome.scripting.executeScript
would succeed (and the message of its failure otherwise), whether the
shared module is loaded in the page, the page environment read by
credential discovery, and the HTTP response of the endpoint. -/
structure World where
  registry : List (Nat × TabInfo)
  tabs : List Tab
  injectOk : Bool
  injectErrMsg : String
  moduleLoaded : Bool
  env : PageEnv
  http : HttpResponse

/-- Observable steps of a relay call, in order: a message delivery attempt
to the content script, a content-script injection, and an HTTP execution
attempt carrying the headers and body the executor sends. -/
inductive RelayEvent where
  | sendMsg : RelayEvent
  | inject : RelayEvent
  | httpAttempt (headers : List (String × String)) (body : Json) : RelayEvent

/-- Number of HTTP execution attempts in a trace. -/
def countHttp : List RelayEvent → Nat
  | [] => 0
  | .httpAttempt _ _ :: rest => countHttp rest + 1
  | _ :: rest => countHttp rest

/-! ## Executor: executeGraphQLQuery (canvas-graphql.js lines 278-342) and
the queryForwarder content script (content_script.js lines 9-57) -/

def defaultEndpoint : String := "https://usflearn.instructure.com/api/graphql"

/-- The request body executeGraphQLQuery builds: the trimmed query, plus the
variables object when it is non-empty. -/
def buildRequestBody (query : String) (vars : List (String × Json)) : Json :=
  .obj (("query", .str query.trim) ::
    (if vars.isEmpty then [] else [("variables", .obj vars)]))

/-- The headers executeGraphQLQuery sends, with X-CSRF-Token appended only
when a token was found. -/
def buildHeaders (csrf : Option String) (env : PageEnv) : List (String × String) :=
  [("Content-Type", "application/json"),
   ("Accept", "application/json+canvas-string-ids, application/json, text/plain, */*"),
   ("X-Requested-With", "XMLHttpRequest"),
   ("Origin", "https://usflearn.instructure.com"),
   ("Referer", env.locationHref)] ++
  (match csrf with
   | some t => [("X-CSRF-Token", t)]
   | none => [])

/-- The error message of the non-ok branch of executeGraphQLQuery. -/
def gqlFailMsg (http : HttpResponse) : String :=
  "GraphQL request failed: " ++ toString http.status ++ " " ++ http.statusText

/-- Message of the error response.json() throws on an unparsable 2xx body. -/
def jsonThrowMsg : String := "Unexpected end of JSON input"

/-- executeGraphQLQuery: find and (again) conditionally decode the CSRF
token, build headers and body, POST, and either return the parsed JSON body
or throw an error carrying status, statusText, the best-effort parsed error
body and the raw text.  The trace records the single fetch. -/
def executeGraphQLQuery (query : String) (endpoint : String) (vars : List (String × Json))
    (env : PageEnv) (http : HttpResponse) : Except ErrPayload Json × List RelayEvent :=
  let csrfToken := (findCSRFToken env).map processToken
  let headers := buildHeaders csrfToken env
  let body := buildRequestBody query vars
  let ev : List RelayEvent := [.httpAttempt headers body]
  let _ := endpoint
  if http.ok then
    match jsonParse http.body with
    | some j => (.ok j, ev)
    | none => (.error (plainErr jsonThrowMsg), ev)
  else
    let errorText := http.body
    let errorData :=
      match jsonParse errorText with
      | some j => j
      | none => Json.obj [("message", .str errorText)]
    (.error
      { message := gqlFailMsg http, status := some http.status,
        statusText := some http.statusText, data := some errorData,
        rawResponse := some errorText }, ev)

/-- Message thrown by handleQueryExecution when the shared module never
appears on the page. -/
def moduleMissingMsg : String :=
  "Canvas GraphQL shared module not loaded. Please refresh the page."

/-- handleQueryExecution of the queryForwarder content script: default the
endpoint, wait for the shared module (modelled by the moduleLoaded flag;
the bounded 5 second poll is collapsed into it) and run
executeGraphQLQuery. -/
def handleQueryExecution (query : String) (vars : List (String × Json))
    (endpoint : Option String) (w : World) : Except ErrPayload Json × List RelayEvent :=
  let graphqlEndpoint := endpoint.getD defaultEndpoint
  if w.moduleLoaded then executeGraphQLQuery query graphqlEndpoint vars w.env w.http
  else (.error (plainErr moduleMissingMsg), [])

/-- The content-script message listener for action executeQuery
(content_script.js lines 9-31): package the result of handleQueryExecution
as success/data, and any caught error as success=false with the structured
error fields.  No exception escapes: the result is a total value. -/
def csListener (req : Request) (w : World) : RelayResponse × List RelayEvent :=
  match handleQueryExecution req.query req.vars req.endpoint w with
  | (.ok result, ev) => ({ success := true, data := some result, error := none }, ev)
  | (.error e, ev) => ({ success := false, data := none, error := some e }, ev)

/-! ## Background script: canvasTabs registry and findCanvasTab
(background.js lines 10-70) -/

/-- Map.set: update in place when the key exists, append otherwise. -/
def setEntry (reg : List (Nat × TabInfo)) (k : Nat) (v : TabInfo) : List (Nat × TabInfo) :=
  if reg.any (fun p => p.1 == k) then
    reg.map (fun p => if p.1 == k then (k, v) else p)
  else reg ++ [(k, v)]

/-- The chrome.tabs.onUpdated listener: when a load completes on a tab
whose url parses and whose hostname mentions instructure.com or canvas,
record the tab in the registry. -/
def onUpdatedReg (reg : List (Nat × TabInfo)) (tabId : Nat) (status : Option String)
    (tab : Tab) : List (Nat × TabInfo) :=
  if status = some "complete" then
    match tab.url with
    | some u =>
      match tab.host with
      | some h =>
        if includesB h "instructure.com" || includesB h "canvas" then
          setEntry reg tabId { url := u, hostname := h }
        else reg
      | none => reg
    | none => reg
  else reg

/-- The chrome.tabs.onRemoved listener: drop the tab from the registry. -/
def onRemovedReg (reg : List (Nat × TabInfo)) (tabId : Nat) : List (Nat × TabInfo) :=
  reg.filter (fun p => p.1 != tabId)

/-- The match findCanvasTab applies to a live tab: the full url string
mentions instructure.com or canvas. -/
def tabUrlMatches (t : Tab) : Bool :=
  match t.url with
  | some u => includesB u "instructure.com" || includesB u "canvas"
  | none => false

/-- chrome.tabs.get, modelled over the live tab list; none models the
rejection for a tab that no longer exists. -/
def tabsGet (tabs : List Tab) (tid : Nat) : Option Tab :=
  tabs.find? (fun t => t.id == tid)

/-- First phase of findCanvasTab: walk the tracked registry entries in
order, dropping entries whose tab no longer exists, and returning the first
whose live tab still matches; non-matching live entries are kept but
skipped. -/
def fctLoop (reg : List (Nat × TabInfo)) (tabs : List Tab) :
    Option Nat × List (Nat × TabInfo) :=
  match reg with
  | [] => (none, [])
  | (tid, info) :: rest =>
    match tabsGet tabs tid with
    | none => fctLoop rest tabs
    | some t =>
      if tabUrlMatches t then (some tid, (tid, info) :: rest)
      else ((fctLoop rest tabs).1, (tid, info) :: (fctLoop rest tabs).2)

/-- Second phase of findCanvasTab: scan every open tab for a url match and
register the first hit; when new URL throws on that url (host = none) the
surrounding catch logs and the function returns null. -/
def fctSearch (reg : List (Nat × TabInfo)) (tabs : List Tab) :
    Option Nat × List (Nat × TabInfo) :=
  match tabs.find? tabUrlMatches with
  | some t =>
    match t.url, t.host with
    | some u, some h => (some t.id, setEntry reg t.id { url := u, hostname := h })
    | some _, none => (none, reg)
    | none, _ => (none, reg)
  | none => (none, reg)

/-- findCanvasTab (background.js lines 39-70): tracked registry first, then
a scan of all open tabs; returns the found tab id and the updated
registry. -/
def findCanvasTab (reg : List (Nat × TabInfo)) (tabs : List Tab) :
    Option Nat × List (Nat × TabInfo) :=
  match fctLoop reg tabs with
  | (some tid, reg2) => (some tid, reg2)
  | (none, reg2) => fctSearch reg2 tabs

/-! ## Background script: executeQuery and the message listeners
(background.js lines 77-184) -/

/-- The rejection message of chrome.tabs.sendMessage when no content script
listens in the target tab. -/
def connFailMsg : String :=
  "Could not establish connection. Receiving end does not exist."

def noTabMsg : String := "No active Canvas tab found. Please open a Canvas page first."

def queryRequiredMsg : String := "Query is required"

/-- The message executeQuery throws for a success=false relay response:
response.error?.message with the JavaScript fallback for a falsy message. -/
def errMsgOf (resp : RelayResponse) : String :=
  match resp.error with
  | some e => if e.message = "" then "Query execution failed" else e.message
  | none => "Query execution failed"

/-- The injection branch of executeQuery: inject the content script (with
the shared module) and re-send the message; every error inside this branch
is rethrown as a Failed-to-inject error. -/
def injectAndRetry (req : Request) (w : World) (evs : List RelayEvent) :
    Except String Json × List RelayEvent :=
  if w.injectOk then
    if (csListener req { w with moduleLoaded := true }).1.success then
      (.ok ((csListener req { w with moduleLoaded := true }).1.data.getD .null),
       evs ++ .inject :: .sendMsg :: (csListener req { w with moduleLoaded := true }).2)
    else
      (.error ("Failed to inject content script: "
          ++ errMsgOf (csListener req { w with moduleLoaded := true }).1),
       evs ++ .inject :: .sendMsg :: (csListener req { w with moduleLoaded := true }).2)
  else (.error ("Failed to inject content script: " ++ w.injectErrMsg), evs)

/-- executeQuery (background.js lines 77-139): validate the query, find a
Canvas tab, send the executeQuery message, and on a connection failure
inject the content script and re-send once.  The Except error is the
message of the JavaScript error the function throws. -/
def executeQuery (req : Request) (w : World) : Except String Json × List RelayEvent :=
  if req.query = "" then (.error queryRequiredMsg, [])
  else
    match (findCanvasTab w.registry w.tabs).1 with
    | none => (.error noTabMsg, [])
    | some tid =>
      match tabsGet w.tabs tid with
      | some tab =>
        if tab.csLoaded then
          if (csListener req w).1.success then
            (.ok ((csListener req w).1.data.getD .null), .sendMsg :: (csListener req w).2)
          else
            if includesB (errMsgOf (csListener req w).1) "Could not establish connection" then
              injectAndRetry req w (.sendMsg :: (csListener req w).2)
            else (.error (errMsgOf (csListener req w).1), .sendMsg :: (csListener req w).2)
        else injectAndRetry req w [.sendMsg]
      | none => injectAndRetry req w [.sendMsg]

/-- The background message listener for action executeGraphQLQuery
(background.js lines 142-184, and the identical external listener at lines
165-184): resolve executeQuery into success/data, and any caught error into
success=false with a structured error carrying the message.  No exception
escapes: the result is a total value. -/
def bgListener (req : Request) (w : World) : RelayResponse :=
  match (executeQuery req w).1 with
  | .ok result => { success := true, data := some result, error := none }
  | .error m => { success := false, data := none, error := some (plainErr m) }

/-- A batch of concurrently in-flight relay calls.  chrome.runtime invokes
the listener once per incoming message, each invocation closing over its
own sendResponse callback bound to the sender; a correlation id tags each
in-flight call and its delivery channel. -/
def dispatchAll (rs : List (Nat × Request)) (w : World) : List (Nat × RelayResponse) :=
  rs.map (fun p => (p.1, bgListener p.2 w))

/-! ## Registry invariants -/

/-- The invariant the specification claims: the recorded hostname of every
registry entry mentions instructure.com or canvas. -/
def InvRegHost (reg : List (Nat × TabInfo)) : Prop :=
  ∀ p ∈ reg, includesB p.2.hostname "instructure.com" = true
    ∨ includesB p.2.hostname "canvas" = true

instance (reg : List (Nat × TabInfo)) : Decidable (InvRegHost reg) := by
  unfold InvRegHost; exact List.decidableBAll _ _

/-- The invariant the code maintains: the url or the recorded hostname of
every registry entry mentions instructure.com or canvas. -/
def entryOk (info : TabInfo) : Prop :=
  includesB info.url "instructure.com" = true ∨ includesB info.url "canvas" = true
    ∨ includesB info.hostname "instructure.com" = true
    ∨ includesB info.hostname "canvas" = true

instance (info : TabInfo) : Decidable (entryOk info) := by
  unfold entryOk; infer_instance

def InvReg (reg : List (Nat × TabInfo)) : Prop := ∀ p ∈ reg, entryOk p.2

instance (reg : List (Nat × TabInfo)) : Decidable (InvReg reg) := by
  unfold InvReg; exact List.decidableBAll _ _

/-! ## Concrete scenario data used by witnesses and counterexamples -/

/-- A page environment with no credential source present. -/
def envTrivial : PageEnv :=
  { metaCsrfDash := none, metaCsrfUnderscore := none, dataCsrfToken := none,
    windowEnvCsrfToken := none, cookie := "",
    locationHref := "https://school.instructure.com/x" }

/-- A live Canvas tab with the content script already loaded. -/
def tabMain : Tab :=
  { id := 5, url := some "https://school.instructure.com/courses",
    host := some "school.instructure.com", csLoaded := true }

/-- A live tab whose full url mentions canvas only in its path. -/
def tabFake : Tab :=
  { id := 7, url := some "https://example.com/canvas",
    host := some "example.com", csLoaded := false }

/-- The 422 endpoint response of the spec scenario. -/
def http422 : HttpResponse :=
  { ok := false, status := 422, statusText := "Unprocessable Entity",
    body := "\x7b\"errors\":[\"invalid token\"]\x7d" }

/-- The 200 endpoint response of the spec scenario. -/
def http200 : HttpResponse :=
  { ok := true, status := 200, statusText := "OK",
    body := "\x7b\"data\":\x7b\"allCourses\":[\x7b\"name\":\"CS101\"\x7d]\x7d\x7d" }

/-- An endpoint failure whose statusText echoes the connection-failure
marker text of chrome.tabs.sendMessage. -/
def http503 : HttpResponse :=
  { ok := false, status := 503, statusText := "Could not establish connection",
    body := "oops" }

/-- World with one live Canvas tab, content script and module loaded, and
the 422 endpoint response. -/
def w422 : World :=
  { registry := [], tabs := [tabMain], injectOk := true, injectErrMsg := "boom",
    moduleLoaded := true, env := envTrivial, http := http422 }

def w200 : World := { w422 with http := http200 }

def w503 : World := { w422 with http := http503 }

/-- World with no tabs open at all. -/
def wEmpty : World :=
  { registry := [], tabs := [], injectOk := true, injectErrMsg := "boom",
    moduleLoaded := true, env := envTrivial, http := http200 }

def reqC5 : Request := { query := "query \x7b x \x7d", vars := [], endpoint := none }

def reqC6 : Request :=
  { query := "query \x7b allCourses \x7b name \x7d \x7d", vars := [], endpoint := none }

/-- The RelayResponse the C6 spec scenario claims, with the data envelope
stripped. -/
def claimC6resp : RelayResponse :=
  { success := true,
    data := some (.obj [("allCourses", .arr [.obj [("name", .str "CS101")]])]),
    error := none }

/-- The full parsed 200 body, envelope included. -/
def fullBody200 : Json :=
  .obj [("data", .obj [("allCourses", .arr [.obj [("name", .str "CS101")]])])]

/-- A registry satisfying the amended invariant, for the C10 witness. -/
def regW : List (Nat × TabInfo) :=
  [(1, { url := "https://x.instructure.com/a", hostname := "x.instructure.com" })]

/-- A tab for the C10 witness whose hostname mentions canvas. -/
def tabW : Tab :=
  { id := 9, url := some "https://canvas.school.edu/b",
    host := some "canvas.school.edu", csLoaded := false }

/-! ## Credential discovery theorems -/

lemma not_tokenPresent_iff (o : Option String) :
    ¬ tokenPresent o ↔ o = none ∨ o = some "" := by
  unfold tokenPresent; tauto

lemma empty_isEmpty : "".isEmpty = true := by rfl

lemma isEmpty_false_of_ne (t : String) (h : t ≠ "") : t.isEmpty = false := by
  cases ht : t.isEmpty
  · rfl
  · exact absurd ((String.isEmpty_iff t).mp ht) h

/-- Shared helper: when the probe at position i yields a truthy candidate
and every earlier probe is absent, findCSRFToken returns that candidate
processed by the decoding step. -/
lemma findCSRFToken_firstPresent (env : PageEnv) (i : Nat) (t : String)
    (hi : i < 5) (ht : probeAt env i = some t) (hne : t ≠ "")
    (hprev : ∀ j, j < i → ¬ tokenPresent (probeAt env j)) :
    findCSRFToken env = some (processToken t) := by
  have hemp := isEmpty_false_of_ne t hne
  interval_cases i
  · simp only [probeAt] at ht
    simp [findCSRFToken, rawProbes, firstToken, empty_isEmpty, ht, hemp]
  · simp only [probeAt] at ht
    have h0 := (not_tokenPresent_iff _).mp (hprev 0 (by omega))
    simp only [probeAt] at h0
    rcases h0 with h0 | h0 <;>
      simp [findCSRFToken, rawProbes, firstToken, empty_isEmpty, ht, hemp, h0]
  · simp only [probeAt] at ht
    have h0 := (not_tokenPresent_iff _).mp (hprev 0 (by omega))
    have h1 := (not_tokenPresent_iff _).mp (hprev 1 (by omega))
    simp only [probeAt] at h0 h1
    rcases h0 with h0 | h0 <;> rcases h1 with h1 | h1 <;>
      simp [findCSRFToken, rawProbes, firstToken, empty_isEmpty, ht, hemp, h0, h1]
  · simp only [probeAt] at ht
    have h0 := (not_tokenPresent_iff _).mp (hprev 0 (by omega))
    have h1 := (not_tokenPresent_iff _).mp (hprev 1 (by omega))
    have h2 := (not_tokenPresent_iff _).mp (hprev 2 (by omega))
    simp only [probeAt] at h0 h1 h2
    rcases h0 with h0 | h0 <;> rcases h1 with h1 | h1 <;> rcases h2 with h2 | h2 <;>
      simp [findCSRFToken, rawProbes, firstToken, empty_isEmpty, ht, hemp, h0, h1, h2]
  · simp only [probeAt] at ht
    have h0 := (not_tokenPresent_iff _).mp (hprev 0 (by omega))
    have h1 := (not_tokenPresent_iff _).mp (hprev 1 (by omega))
    have h2 := (not_tokenPresent_iff _).mp (hprev 2 (by omega))
    have h3 := (not_tokenPresent_iff _).mp (hprev 3 (by omega))
    simp only [probeAt] at h0 h1 h2 h3
    rcases h0 with h0 | h0 <;> rcases h1 with h1 | h1 <;> rcases h2 with h2 | h2 <;>
      rcases h3 with h3 | h3 <;>
      simp [findCSRFToken, rawProbes, firstToken, empty_isEmpty, ht, hemp, h0, h1, h2, h3]

/-- C1: for every page environment, findCSRFToken returns the candidate of
the earliest probe in its fixed order (meta csrf-token, meta csrf_token,
data-csrf-token attribute, window.ENV.CSRF_TOKEN, cookies) that yields a
truthy candidate (the code's minimum validity threshold: a non-empty
string), subjected to the decoding step, and never the value of a later
source when an earlier source is present. -/
theorem findCSRFToken_precedence (env : PageEnv) (i : Nat) (t : String)
    (hi : i < 5) (ht : probeAt env i = some t) (hne : t ≠ "")
    (hprev : ∀ j, j < i → ¬ tokenPresent (probeAt env j)) :
    findCSRFToken env = some (processToken t) :=
  findCSRFToken_firstPresent env i t hi ht hne hprev

/-- Witness for C1: the spec scenario with the config object holding the
encoded token and a cookie holding a decoy; discovery returns the decoded
config-object token, not the cookie. -/
theorem findCSRFToken_precedence_witness :
    findCSRFToken
      { metaCsrfDash := none, metaCsrfUnderscore := none, dataCsrfToken := none,
        windowEnvCsrfToken := some "wsOtaQBx%2FJYTXbtcA",
        cookie := "csrf_token=shouldNotBeUsed",
        locationHref := "https://usflearn.instructure.com/" }
      = some "wsOtaQBx/JYTXbtcA" := by
  have h := findCSRFToken_precedence
    { metaCsrfDash := none, metaCsrfUnderscore := none, dataCsrfToken := none,
      windowEnvCsrfToken := some "wsOtaQBx%2FJYTXbtcA",
      cookie := "csrf_token=shouldNotBeUsed",
      locationHref := "https://usflearn.instructure.com/" }
    3 "wsOtaQBx%2FJYTXbtcA" (by omega) (by rfl) (by decide)
    (by intro j hj; interval_cases j <;> decide)
  exact h.trans (by rfl)

/-- C2: when the earliest truthy candidate contains a percent sign,
decoding is attempted, and when decodeURIComponent throws (uriDecode
returns none) the raw undecoded candidate is returned; the discovery
operation itself is total and never propagates the failure. -/
theorem findCSRFToken_decode_fallback (env : PageEnv) (i : Nat) (t : String)
    (hi : i < 5) (ht : probeAt env i = some t) (hne : t ≠ "")
    (hpct : includesB t "%" = true) (hfail : uriDecode t = none)
    (hprev : ∀ j, j < i → ¬ tokenPresent (probeAt env j)) :
    findCSRFToken env = some t := by
  rw [findCSRFToken_firstPresent env i t hi ht hne hprev]
  simp [processToken, hpct, hfail]

/-- Witness for C2: a meta tag carrying the malformed candidate abc%, whose
percent escape is truncated; decoding throws and discovery returns the raw
candidate. -/
theorem findCSRFToken_decode_fallback_witness :
    findCSRFToken
      { metaCsrfDash := some "abc%", metaCsrfUnderscore := none, dataCsrfToken := none,
        windowEnvCsrfToken := none, cookie := "", locationHref := "" }
      = some "abc%" :=
  findCSRFToken_decode_fallback
    { metaCsrfDash := some "abc%", metaCsrfUnderscore := none, dataCsrfToken := none,
      windowEnvCsrfToken := none, cookie := "", locationHref := "" }
    0 "abc%" (by omega) (by rfl) (by decide) (by decide) (by rfl)
    (by intro j hj; omega)

/-- C9: the decoding step leaves a candidate without a percent sign
unchanged: decoding is not even attempted for it. -/
theorem processToken_id_of_no_percent (t : String)
    (h : includesB t "%" = false) : processToken t = t := by
  simp [processToken, h]

/-- Witness for C9: a plain alphanumeric token passes through the decoding
step unchanged. -/
theorem processToken_id_of_no_percent_witness :
    includesB "sometoken123" "%" = false ∧ processToken "sometoken123" = "sometoken123" :=
  ⟨by decide, processToken_id_of_no_percent "sometoken123" (by decide)⟩

/-! ## Relay theorems -/

/-- C3 counterexample: a RelayRequest with an empty query, dispatched while
no Canvas tab is open, is rejected with the Query-is-required error, not
the no-target error the claim asserts for every RelayRequest. -/
theorem executeQuery_empty_query_cex :
    executeQuery { query := "", vars := [], endpoint := none } wEmpty
        = (.error queryRequiredMsg, [])
      ∧ queryRequiredMsg ≠ noTabMsg :=
  ⟨by rfl, by decide⟩

/-- C3 (amended): for every RelayRequest with a non-empty query dispatched
while findCanvasTab locates no Canvas tab, executeQuery returns the
descriptive no-target error with an empty trace: no message delivery, no
injection and no HTTP attempt happens, and the check is a terminating scan
of the registry and the open tabs, not a timeout. -/
theorem executeQuery_no_tab_fails_fast (req : Request) (w : World)
    (hq : req.query ≠ "") (hno : (findCanvasTab w.registry w.tabs).1 = none) :
    executeQuery req w = (.error noTabMsg, []) := by
  unfold executeQuery
  simp [hq, hno]

/-- Witness for the amended C3: a non-empty query against a world with no
tabs open. -/
theorem executeQuery_no_tab_fails_fast_witness :
    executeQuery reqC5 wEmpty = (.error noTabMsg, []) :=
  executeQuery_no_tab_fails_fast reqC5 wEmpty (by decide) (by rfl)

/-- C4: on both transport boundaries (the background listener answering the
original caller, and the content-script listener answering the background)
every outcome is delivered as a structured result value: success with data,
or success=false with a structured error object; the listener functions are
total, so no exception crosses either boundary. -/
theorem relay_errors_structured (req : Request) (w : World) :
    ((bgListener req w).success = true ∧ (∃ d, (bgListener req w).data = some d)
        ∧ (bgListener req w).error = none
      ∨ (bgListener req w).success = false ∧ (bgListener req w).data = none
        ∧ ∃ e, (bgListener req w).error = some e)
    ∧ ((csListener req w).1.success = true ∧ (∃ d, (csListener req w).1.data = some d)
        ∧ (csListener req w).1.error = none
      ∨ (csListener req w).1.success = false ∧ (csListener req w).1.data = none
        ∧ ∃ e, (csListener req w).1.error = some e) := by
  constructor
  · cases hx : (executeQuery req w).1 with
    | ok d => simp [bgListener, hx]
    | error m => simp [bgListener, hx]
  · cases hx : handleQueryExecution req.query req.vars req.endpoint w with
    | mk r ev =>
      cases r with
      | ok d => simp [csListener, hx]
      | error e => simp [csListener, hx]

/-- C5 counterexample: for the 422 scenario, the response delivered to the
original caller carries no status field at all (the background hop forwards
only the thrown message) and its message does not contain the body text
invalid token. -/
theorem relay_422_status_cex :
    ¬ ∃ e, (bgListener reqC5 w422).error = some e ∧ e.status = some 422
        ∧ includesB e.message "invalid token" = true := by
  rintro ⟨e, he, hs, hm⟩
  have hval : (bgListener reqC5 w422).error
      = some (plainErr "GraphQL request failed: 422 Unprocessable Entity") := by rfl
  rw [hval] at he
  cases Option.some.inj he
  simp [plainErr] at hs

/-- C5 (amended): in the 422 scenario the status code and the body text are
surfaced one hop earlier, in the content-script response (error.status is
422 and error.rawResponse contains invalid token); the background hop
delivers success=false but keeps only the thrown message, GraphQL request
failed: 422 followed by the statusText, which does not contain the body
text. -/
theorem relay_422_amended :
    ((csListener reqC5 w422).1.error.map (fun e => (e.status, e.rawResponse)))
        = some (some 422, some "\x7b\"errors\":[\"invalid token\"]\x7d")
      ∧ includesB "\x7b\"errors\":[\"invalid token\"]\x7d" "invalid token" = true
      ∧ ((bgListener reqC5 w422).error.map (fun e => e.message))
        = some "GraphQL request failed: 422 Unprocessable Entity"
      ∧ (bgListener reqC5 w422).success = false
      ∧ includesB "GraphQL request failed: 422 Unprocessable Entity" "invalid token"
        = false :=
  ⟨by rfl, by decide, by rfl, by rfl, by decide⟩

/-- C6 counterexample: the 200 scenario does not deliver the RelayResponse
the claim states: the delivered data is not the object whose only top-level
key is allCourses. -/
theorem relay_200_envelope_cex : bgListener reqC6 w200 ≠ claimC6resp := by
  intro h
  have lhs : (bgListener reqC6 w200).data.map topKeys = some ["data"] := by rfl
  rw [h] at lhs
  exact absurd lhs (by decide)

/-- C6 (amended): the 200 scenario delivers success=true with the entire
parsed JSON body as data, the top-level data envelope included. -/
theorem relay_200_amended :
    bgListener reqC6 w200 = { success := true, data := some fullBody200, error := none } := by
  rfl

/-! ## Counting HTTP execution attempts -/

lemma countHttp_append (a b : List RelayEvent) :
    countHttp (a ++ b) = countHttp a + countHttp b := by
  induction a with
  | nil => simp [countHttp]
  | cons x rest ih => cases x <;> simp [countHttp, ih] <;> omega

/-- The executor performs at most one fetch per received message. -/
lemma countHttp_executor (q : String) (vs : List (String × Json)) (ep : Option String)
    (w : World) : countHttp (handleQueryExecution q vs ep w).2 ≤ 1 := by
  simp only [handleQueryExecution, executeGraphQLQuery]
  split
  · split
    · split <;> simp [countHttp]
    · simp [countHttp]
  · simp [countHttp]

lemma csListener_snd (req : Request) (w : World) :
    (csListener req w).2 = (handleQueryExecution req.query req.vars req.endpoint w).2 := by
  unfold csListener
  cases hx : handleQueryExecution req.query req.vars req.endpoint w with
  | mk r ev => cases r <;> simp [hx]

/-- Every error the executor can throw carries one of three messages. -/
lemma handle_err_msg (q : String) (vs : List (String × Json)) (ep : Option String)
    (w : World) (e : ErrPayload) (ev : List RelayEvent)
    (h : handleQueryExecution q vs ep w = (.error e, ev)) :
    e.message = moduleMissingMsg ∨ e.message = jsonThrowMsg
      ∨ e.message = gqlFailMsg w.http := by
  simp only [handleQueryExecution, executeGraphQLQuery] at h
  split at h
  · split at h
    · split at h
      · simp at h
      · injection h with h1 h2
        injection h1 with h3
        rw [← h3, plainErr]
        simp
    · injection h with h1 h2
      injection h1 with h3
      rw [← h3]
      simp
  · injection h with h1 h2
    injection h1 with h3
    rw [← h3, plainErr]
    simp

/-- The message executeQuery rethrows for a failed content-script response
is one of four concrete possibilities. -/
lemma errMsgOf_cases (req : Request) (w : World) (resp : RelayResponse)
    (ev : List RelayEvent) (hx : csListener req w = (resp, ev))
    (hf : resp.success = false) :
    errMsgOf resp = "Query execution failed" ∨ errMsgOf resp = moduleMissingMsg
      ∨ errMsgOf resp = jsonThrowMsg ∨ errMsgOf resp = gqlFailMsg w.http := by
  unfold csListener at hx
  cases hy : handleQueryExecution req.query req.vars req.endpoint w with
  | mk r ev2 =>
    rw [hy] at hx
    cases r with
    | ok d =>
      simp only [] at hx
      injection hx with h1 h2
      rw [← h1] at hf
      simp at hf
    | error e =>
      simp only [] at hx
      injection hx with h1 h2
      by_cases hemm : e.message = ""
      · left
        rw [← h1]
        simp [errMsgOf, hemm]
      · have hmsg : errMsgOf resp = e.message := by
          rw [← h1]; simp [errMsgOf, hemm]
        rcases handle_err_msg req.query req.vars req.endpoint w e ev2 hy with h | h | h
        · exact Or.inr (Or.inl (hmsg.trans h))
        · exact Or.inr (Or.inr (Or.inl (hmsg.trans h)))
        · exact Or.inr (Or.inr (Or.inr (hmsg.trans h)))

/-- Bound on the injection-and-retry branch: at most one more HTTP attempt
than already in the accumulated trace. -/
lemma injectAndRetry_bound (req : Request) (w : World) (evs : List RelayEvent) :
    countHttp (injectAndRetry req w evs).2 ≤ countHttp evs + 1 := by
  have hcs : countHttp (csListener req { w with moduleLoaded := true }).2 ≤ 1 := by
    rw [csListener_snd]
    exact countHttp_executor req.query req.vars req.endpoint { w with moduleLoaded := true }
  unfold injectAndRetry
  split
  · split <;> simp [countHttp_append, countHttp] <;> omega
  · simp

/-- C7 counterexample: when the executed HTTP call fails with a statusText
echoing the connection-failure marker, the background misreads the failure
as an undelivered message, injects the content script and re-sends, so the
single RelayRequest performs two HTTP execution attempts before failing. -/
theorem relay_retry_cex :
    countHttp (executeQuery reqC5 w503).2 = 2
      ∧ (executeQuery reqC5 w503).1
        = .error ("Failed to inject content script: " ++ gqlFailMsg http503) :=
  ⟨by rfl, by rfl⟩

/-- C7 (amended): a RelayRequest performs at most one HTTP execution
attempt (zero when it fails before delivery), provided the failure message
of an executed call does not itself contain the connection-failure marker
text; with such a message the injection branch re-sends and a second
attempt occurs, as the counterexample shows. -/
theorem relay_at_most_one_attempt (req : Request) (w : World)
    (h : includesB (gqlFailMsg w.http) "Could not establish connection" = false) :
    countHttp (executeQuery req w).2 ≤ 1 := by
  have hcs : countHttp (csListener req w).2 ≤ 1 := by
    rw [csListener_snd]
    exact countHttp_executor req.query req.vars req.endpoint w
  unfold executeQuery
  split
  · simp [countHttp]
  · split
    · simp [countHttp]
    · split
      · split
        · split
          · simpa [countHttp] using hcs
          · split
            · exfalso
              rename_i hf hmark
              cases hx : csListener req w with
              | mk resp ev =>
                rw [hx] at hf hmark
                simp only [] at hf hmark
                rcases errMsgOf_cases req w resp ev hx (by simpa using hf) with
                  hm | hm | hm | hm <;> rw [hm] at hmark
                · exact absurd hmark (by decide)
                · exact absurd hmark (by decide)
                · exact absurd hmark (by decide)
                · rw [h] at hmark
                  exact Bool.noConfusion hmark
            · simpa [countHttp] using hcs
        · calc countHttp (injectAndRetry req w [.sendMsg]).2
              ≤ countHttp [RelayEvent.sendMsg] + 1 := injectAndRetry_bound req w _
            _ ≤ 1 := by simp [countHttp]
      · calc countHttp (injectAndRetry req w [.sendMsg]).2
            ≤ countHttp [RelayEvent.sendMsg] + 1 := injectAndRetry_bound req w _
          _ ≤ 1 := by simp [countHttp]

/-- Witness for the amended C7: the 200 scenario satisfies the marker
hypothesis and performs at most one attempt. -/
theorem relay_at_most_one_attempt_witness :
    includesB (gqlFailMsg w200.http) "Could not establish connection" = false
      ∧ countHttp (executeQuery reqC6 w200).2 ≤ 1 :=
  ⟨by decide, relay_at_most_one_attempt reqC6 w200 (by decide)⟩

/-! ## Concurrent dispatch -/

lemma key_unique (rs : List (Nat × Request)) (h : (rs.map Prod.fst).Nodup) (c : Nat)
    (a b : Request) (ha : (c, a) ∈ rs) (hb : (c, b) ∈ rs) : a = b := by
  induction rs with
  | nil => cases ha
  | cons p rest ih =>
    rw [List.map_cons, List.nodup_cons] at h
    rcases List.mem_cons.mp ha with ha1 | ha1 <;> rcases List.mem_cons.mp hb with hb1 | hb1
    · exact congrArg Prod.snd (ha1.trans hb1.symm)
    · exfalso
      apply h.1
      have hmem : Prod.fst (c, b) ∈ List.map Prod.fst rest :=
        List.mem_map_of_mem Prod.fst hb1
      rw [← ha1]
      exact hmem
    · exfalso
      apply h.1
      have hmem : Prod.fst (c, a) ∈ List.map Prod.fst rest :=
        List.mem_map_of_mem Prod.fst ha1
      rw [← hb1]
      exact hmem
    · exact ih h.2 ha1 hb1

/-- C8: for a batch of concurrently in-flight RelayRequests with pairwise
distinct correlation ids, the response delivered under a correlation id is
exactly the listener's answer to that id's own request: chrome.runtime
binds one sendResponse callback per listener invocation, and the listener
resolves only its own callback, so there is no cross-delivery. -/
theorem no_cross_delivery (rs : List (Nat × Request)) (w : World) (c : Nat)
    (req : Request) (resp : RelayResponse)
    (hdist : (rs.map Prod.fst).Nodup) (hreq : (c, req) ∈ rs)
    (hresp : (c, resp) ∈ dispatchAll rs w) : resp = bgListener req w := by
  obtain ⟨⟨c2, r2⟩, hmem, heq⟩ := List.mem_map.mp hresp
  obtain ⟨hc, hr⟩ : c2 = c ∧ bgListener r2 w = resp := by simpa using heq
  subst hc
  have hr2 : r2 = req := key_unique rs hdist c2 r2 req hmem hreq
  rw [← hr, hr2]

/-- Witness for C8: two concurrent requests with correlation ids 1 and 2;
the response delivered under id 2 is the answer to request 2. -/
theorem no_cross_delivery_witness :
    ({ success := true, data := some fullBody200, error := none } : RelayResponse)
      = bgListener reqC6 w200 :=
  no_cross_delivery [(1, reqC5), (2, reqC6)] w200 2 reqC6
    { success := true, data := some fullBody200, error := none }
    (by decide) (List.Mem.tail _ (List.Mem.head _)) (List.Mem.tail _ (List.Mem.head _))

/-! ## Registry invariant theorems -/

lemma InvReg_setEntry (reg : List (Nat × TabInfo)) (k : Nat) (v : TabInfo)
    (hreg : InvReg reg) (hv : entryOk v) : InvReg (setEntry reg k v) := by
  unfold setEntry
  split
  · intro p hp
    obtain ⟨q, hq, hfq⟩ := List.mem_map.mp hp
    split at hfq
    · rw [← hfq]
      exact hv
    · rw [← hfq]
      exact hreg q hq
  · intro p hp
    rcases List.mem_append.mp hp with hp | hp
    · exact hreg p hp
    · rw [List.mem_singleton.mp hp]
      exact hv

lemma fctLoop_mem (reg : List (Nat × TabInfo)) (tabs : List Tab) (p : Nat × TabInfo)
    (hp : p ∈ (fctLoop reg tabs).2) : p ∈ reg := by
  induction reg with
  | nil => simpa [fctLoop] using hp
  | cons q rest ih =>
    obtain ⟨tid, info⟩ := q
    cases htg : tabsGet tabs tid with
    | none =>
      simp only [fctLoop, htg] at hp
      exact List.mem_cons_of_mem _ (ih hp)
    | some t =>
      simp only [fctLoop, htg] at hp
      by_cases hm : tabUrlMatches t = true
      · rw [if_pos hm] at hp
        exact hp
      · rw [if_neg hm] at hp
        have hp2 : p ∈ (tid, info) :: (fctLoop rest tabs).2 := hp
        rcases List.mem_cons.mp hp2 with hp3 | hp3
        · exact List.mem_cons.mpr (Or.inl hp3)
        · exact List.mem_cons_of_mem _ (ih hp3)

lemma InvReg_fctLoop (reg : List (Nat × TabInfo)) (tabs : List Tab)
    (hreg : InvReg reg) : InvReg (fctLoop reg tabs).2 :=
  fun p hp => hreg p (fctLoop_mem reg tabs p hp)

lemma InvReg_fctSearch (reg : List (Nat × TabInfo)) (tabs : List Tab)
    (hreg : InvReg reg) : InvReg (fctSearch reg tabs).2 := by
  unfold fctSearch
  split
  · rename_i t hfind
    split
    · rename_i u h hu hh
      apply InvReg_setEntry _ _ _ hreg
      have hmatch : tabUrlMatches t = true := List.find?_some hfind
      rw [tabUrlMatches, hu] at hmatch
      rcases Bool.or_eq_true_iff.mp hmatch with h1 | h1
      · exact Or.inl h1
      · exact Or.inr (Or.inl h1)
    · exact hreg
    · exact hreg
  · exact hreg

/-- C10 counterexample: the hostname form of the invariant is not preserved
by findCanvasTab: starting from the empty registry (which satisfies it),
scanning a tab whose url mentions canvas only in its path inserts an entry
whose hostname mentions neither instructure.com nor canvas. -/
theorem canvasTabs_hostname_invariant_cex :
    InvRegHost [] ∧ ¬ InvRegHost ((findCanvasTab [] [tabFake]).2) :=
  ⟨by decide, by decide⟩

/-- C10 (amended): every canvasTabs entry has a url or recorded hostname
mentioning instructure.com or canvas, and this invariant is preserved by
the tab-update listener (which checks the hostname), the tab-removal
listener (which only deletes) and findCanvasTab (which deletes dead
entries and inserts only tabs whose full url matches). -/
theorem canvasTabs_registry_invariant (reg : List (Nat × TabInfo)) (tabs : List Tab)
    (tabId : Nat) (status : Option String) (tab : Tab) (hreg : InvReg reg) :
    InvReg (onUpdatedReg reg tabId status tab) ∧ InvReg (onRemovedReg reg tabId)
      ∧ InvReg ((findCanvasTab reg tabs).2) := by
  refine ⟨?_, ?_, ?_⟩
  · unfold onUpdatedReg
    split
    · split
      · split
        · split
          · rename_i u h hu hh hcond
            apply InvReg_setEntry _ _ _ hreg
            rcases Bool.or_eq_true_iff.mp hcond with h1 | h1
            · exact Or.inr (Or.inr (Or.inl h1))
            · exact Or.inr (Or.inr (Or.inr h1))
          · exact hreg
        · exact hreg
      · exact hreg
    · exact hreg
  · intro p hp
    exact hreg p (List.mem_filter.mp hp).1
  · unfold findCanvasTab
    cases hloop : fctLoop reg tabs with
    | mk r reg2 =>
      have h2 : InvReg reg2 := by
        have := InvReg_fctLoop reg tabs hreg
        rw [hloop] at this
        exact this
      cases r with
      | some tid => simpa using h2
      | none => simpa using InvReg_fctSearch reg2 tabs h2

/-- Witness for the amended C10: a one-entry registry satisfying the
invariant keeps satisfying it under all three operations. -/
theorem canvasTabs_registry_invariant_witness :
    InvReg (onUpdatedReg regW 9 (some "complete") tabW) ∧ InvReg (onRemovedReg regW 9)
      ∧ InvReg ((findCanvasTab regW [tabW]).2) :=
  canvasTabs_registry_invariant regW [tabW] 9 (some "complete") tabW (by decide)

end CanvasMCP
